import Mathlib

/-!
Shallow embedding of the data-access layer of the school ERP
(single file `erp.py`: Tkinter + SQLite). The SQLite tables become lists
of records; each dashboard action becomes a pure function on a `Store`.
`AUTOINCREMENT` primary keys are modelled by `nextId`, which returns a
value strictly larger than every id already present (no row is ever
deleted, so this matches SQLite semantics). Fallible actions (unique
constraint violations, empty-field form validation) return `Except`.
Text fields are `String`; the Python `.strip()` on form input is
modelled by `strip` (a structural re-implementation, so the kernel can evaluate it).
-/

namespace Erp

/-- Row of the `users` table (`erp.py`, `init_db`). -/
structure UserRow where
  user_id : Nat
  username : String
  password : String
  role : String
  reference_id : Option Nat
  created_at : String
deriving Repr, DecidableEq

/-- Row of the `teachers` table. -/
structure TeacherRow where
  teacher_id : Nat
  name : String
  phone : String
  email : String
deriving Repr, DecidableEq

/-- Row of the `students` table. -/
structure StudentRow where
  student_id : Nat
  name : String
  roll_no : String
  phone : String
  email : String
  course : String
deriving Repr, DecidableEq

/-- Row of the `subjects` table. -/
structure SubjectRow where
  subject_id : Nat
  subject_name : String
  subject_code : String
deriving Repr, DecidableEq

/-- Row of the `assignments` table. -/
structure AssignmentRow where
  id : Nat
  teacher_id : Nat
  subject_id : Nat
deriving Repr, DecidableEq

/-- Row of the `attendance` table. -/
structure AttendanceRow where
  attendance_id : Nat
  student_id : Nat
  teacher_id : Nat
  subject_id : Nat
  date : String
  status : String
deriving Repr, DecidableEq

/-- Row of the `marks` table. -/
structure MarksRow where
  marks_id : Nat
  student_id : Nat
  subject_id : Nat
  teacher_id : Nat
  marks : Nat
  exam_type : String
  created_at : String
deriving Repr, DecidableEq

/-- Row of the `notices` table. -/
structure NoticeRow where
  notice_id : Nat
  title : String
  content : String
  date : String
deriving Repr, DecidableEq

/-- The whole relational store: one list per table. -/
structure Store where
  users : List UserRow
  teachers : List TeacherRow
  students : List StudentRow
  subjects : List SubjectRow
  assignments : List AssignmentRow
  attendance : List AttendanceRow
  marks : List MarksRow
  notices : List NoticeRow
deriving Repr, DecidableEq

/-- The store right after `CREATE TABLE IF NOT EXISTS ...` on a fresh
database file: all tables empty. -/
def emptyStore : Store := ⟨[], [], [], [], [], [], [], []⟩

/-- Fresh `AUTOINCREMENT` id: strictly larger than every id already used. -/
def nextId (ids : List Nat) : Nat := ids.foldr max 0 + 1

/-- Python `str.strip()`: drop leading and trailing whitespace. -/
def strip (s : String) : String :=
  String.mk
    (((s.data.dropWhile Char.isWhitespace).reverse.dropWhile
        Char.isWhitespace).reverse)

/-- Python `str.lower()`: lower-case every character. -/
def lower (s : String) : String := String.mk (s.data.map Char.toLower)

/-- Error outcomes of the fallible actions: `duplicateKey` models a
caught `sqlite3.IntegrityError`, `validationError` models form input
rejected before any SQL runs. -/
inductive DBError where
  | duplicateKey
  | validationError
deriving Repr, DecidableEq

/-- `init_db` (`erp.py` lines 32-117): table creation is `IF NOT EXISTS`
(a no-op on the embedded store), then if no user with role `admin`
exists the default `admin`/`admin123` user is inserted. The insert hits
the `UNIQUE` username constraint when a non-admin user already took the
name `admin`; that exception is not caught in the source, modelled here
as `duplicateKey`. `now` stands for the `CURRENT_TIMESTAMP` default. -/
def init_db (now : String) (s : Store) : Except DBError Store :=
  if s.users.any (fun r => r.role == "admin") then Except.ok s
  else if s.users.any (fun r => r.username == "admin") then
    Except.error DBError.duplicateKey
  else Except.ok { s with users := s.users ++
    [ { user_id := nextId (s.users.map (fun r => r.user_id)),
        username := "admin", password := "admin123", role := "admin",
        reference_id := none, created_at := now } ] }

/-- The credential lookup inside `LoginPage.do_login`:
`SELECT * FROM users WHERE username=? AND password=?` followed by
`fetchone()`. A pure read: it never writes the store. -/
def authenticate (s : Store) (u p : String) : Option UserRow :=
  s.users.find? (fun r => r.username == u && r.password == p)

/-- Outcome of a login attempt as the user sees it. -/
inductive LoginResult where
  | validationError
  | invalidCredentials
  | success (user : UserRow)
deriving Repr, DecidableEq

/-- `LoginPage.do_login` (`erp.py` lines 160-183): strips both fields,
rejects when either is empty after stripping (before any query), then
looks the pair up with `authenticate`. -/
def do_login (s : Store) (rawUser rawPass : String) : LoginResult :=
  let u := strip rawUser
  let p := strip rawPass
  if u == "" || p == "" then LoginResult.validationError
  else
    match authenticate s u p with
    | none => LoginResult.invalidCredentials
    | some row => LoginResult.success row

/-- `AdminDashboard.add_student` (`erp.py` lines 432-445), together with
the `SimpleForm` dialog that strips every field and requires all of them
non-empty. A duplicate `roll_no` violates the `UNIQUE` constraint and is
reported as `duplicateKey`; the store is left untouched. -/
def add_student (s : Store) (name roll phone email course : String) :
    Except DBError Store :=
  if strip name == "" || strip roll == "" || strip phone == "" ||
      strip email == "" || strip course == "" then
    Except.error DBError.validationError
  else if s.students.any (fun r => r.roll_no == strip roll) then
    Except.error DBError.duplicateKey
  else Except.ok { s with students := s.students ++
    [ { student_id := nextId (s.students.map (fun r => r.student_id)),
        name := strip name, roll_no := strip roll, phone := strip phone,
        email := strip email, course := strip course } ] }

/-- `AdminDashboard.add_teacher`: validated form input, unconditional
insert (no unique column on `teachers`). -/
def add_teacher (s : Store) (name phone email : String) :
    Except DBError Store :=
  if strip name == "" || strip phone == "" || strip email == "" then
    Except.error DBError.validationError
  else Except.ok { s with teachers := s.teachers ++
    [ { teacher_id := nextId (s.teachers.map (fun r => r.teacher_id)),
        name := strip name, phone := strip phone, email := strip email } ] }

/-- `AdminDashboard.add_subject`: validated form input; duplicate
`subject_code` is a `UNIQUE` violation. -/
def add_subject (s : Store) (name code : String) : Except DBError Store :=
  if strip name == "" || strip code == "" then
    Except.error DBError.validationError
  else if s.subjects.any (fun r => r.subject_code == strip code) then
    Except.error DBError.duplicateKey
  else Except.ok { s with subjects := s.subjects ++
    [ { subject_id := nextId (s.subjects.map (fun r => r.subject_id)),
        subject_name := strip name, subject_code := strip code } ] }

/-- `AdminDashboard.assign_teacher`: unconditional link insert, no
uniqueness check (the design gap noted in the data model). -/
def assign_teacher (s : Store) (teacherId subjectId : Nat) : Store :=
  { s with assignments := s.assignments ++
    [ { id := nextId (s.assignments.map (fun a => a.id)),
        teacher_id := teacherId, subject_id := subjectId } ] }

/-- `AdminDashboard.create_login`: role must be `teacher` or `student`
(lower-cased); dialog strips username and password and requires both;
duplicate username is a `UNIQUE` violation. -/
def create_login (s : Store) (role username password : String) (ref : Nat)
    (now : String) : Except DBError Store :=
  if !(lower role == "teacher" || lower role == "student") then
    Except.error DBError.validationError
  else if strip username == "" || strip password == "" then
    Except.error DBError.validationError
  else if s.users.any (fun r => r.username == strip username) then
    Except.error DBError.duplicateKey
  else Except.ok { s with users := s.users ++
    [ { user_id := nextId (s.users.map (fun r => r.user_id)),
        username := strip username, password := strip password,
        role := lower role, reference_id := some ref,
        created_at := now } ] }

/-- `AdminDashboard.add_notice` (`erp.py` lines 520-529) with the
`SimpleForm` validation (`on_ok`, lines 753-759): title and content are
stripped and must be non-empty; the stored date is always
`str(date.today())`, passed here as `today` - the caller of the action
never supplies it. -/
def add_notice (s : Store) (title content today : String) :
    Except DBError Store :=
  if strip title == "" || strip content == "" then
    Except.error DBError.validationError
  else Except.ok { s with notices := s.notices ++
    [ { notice_id := nextId (s.notices.map (fun n => n.notice_id)),
        title := strip title, content := strip content, date := today } ] }

/-- `AdminDashboard.reset_password` (`erp.py` lines 360-374): a blank
new password cancels the dialog; otherwise
`UPDATE users SET password=?, created_at=? WHERE user_id=?` with
`datetime.now().isoformat()` as the new `created_at`. -/
def reset_password (s : Store) (userId : Nat) (newPw now : String) : Store :=
  if newPw == "" then s
  else { s with users := s.users.map (fun r =>
    if r.user_id == userId then
      { r with password := newPw, created_at := now }
    else r) }

/-- The row filter used by both the attendance lookup and the toggle:
`WHERE student_id=? AND subject_id=? AND date=?`. -/
def attMatches (studentId subjectId : Nat) (d : String)
    (r : AttendanceRow) : Bool :=
  r.student_id == studentId && r.subject_id == subjectId && r.date == d

/-- `TeacherDashboard.mark_attendance` (`erp.py` lines 611-636): if a
row for the (student, subject, date) triple exists, flip its status
(`Present` if it was `Absent`, else `Absent`) and overwrite its
`teacher_id`; otherwise insert a fresh row with status `Present`. The
SQL `UPDATE ... WHERE attendance_id=?` touches every row carrying that
primary key, hence the `map`. -/
def mark_attendance (s : Store) (studentId subjectId teacherRef : Nat)
    (today : String) : Store :=
  match s.attendance.find? (attMatches studentId subjectId today) with
  | some r =>
      { s with attendance := s.attendance.map (fun a =>
          if a.attendance_id == r.attendance_id then
            { a with
                status := if r.status == "Absent" then "Present" else "Absent",
                teacher_id := teacherRef }
          else a) }
  | none =>
      { s with attendance := s.attendance ++
        [ { attendance_id := nextId (s.attendance.map (fun a => a.attendance_id)),
            student_id := studentId, teacher_id := teacherRef,
            subject_id := subjectId, date := today, status := "Present" } ] }

/-- The per-student status read inside `TeacherDashboard.load_students`
(`erp.py` lines 590-609): `SELECT status FROM attendance WHERE ...`,
showing the fetched status, or the literal `NotMarked` when no row
exists. A pure read: it never writes the store and is total. -/
def load_student_status (s : Store) (studentId subjectId : Nat)
    (today : String) : String :=
  match s.attendance.find? (attMatches studentId subjectId today) with
  | some r => r.status
  | none => "NotMarked"

/-- `TeacherDashboard.update_marks` (`erp.py` lines 638-661): always
inserts a new `marks` row (the source comment: insert a new marks
record, keeps history). `now` stands for the `CURRENT_TIMESTAMP`
default on `created_at`. -/
def update_marks (s : Store) (studentId subjectId teacherRef marksVal : Nat)
    (examType now : String) : Store :=
  { s with marks := s.marks ++
    [ { marks_id := nextId (s.marks.map (fun m => m.marks_id)),
        student_id := studentId, subject_id := subjectId,
        teacher_id := teacherRef, marks := marksVal,
        exam_type := examType, created_at := now } ] }

/-- One store-mutating operation of the program (one user action). -/
inductive Op where
  | opInitDb (now : String)
  | opAddStudent (name roll phone email course : String)
  | opAddTeacher (name phone email : String)
  | opAddSubject (name code : String)
  | opAssignTeacher (teacherId subjectId : Nat)
  | opCreateLogin (role username password : String) (ref : Nat) (now : String)
  | opAddNotice (title content today : String)
  | opMarkAttendance (studentId subjectId teacherRef : Nat) (today : String)
  | opUpdateMarks (studentId subjectId teacherRef marksVal : Nat)
      (examType now : String)
  | opResetPassword (userId : Nat) (newPw now : String)
deriving Repr

/-- A failed action commits nothing: the store is unchanged. -/
def orSame (s : Store) : Except DBError Store → Store
  | Except.ok s2 => s2
  | Except.error _ => s

/-- Effect of one operation on the store (errors leave it unchanged). -/
def applyOp (s : Store) : Op → Store
  | Op.opInitDb now => orSame s (init_db now s)
  | Op.opAddStudent name roll phone email course =>
      orSame s (add_student s name roll phone email course)
  | Op.opAddTeacher name phone email => orSame s (add_teacher s name phone email)
  | Op.opAddSubject name code => orSame s (add_subject s name code)
  | Op.opAssignTeacher teacherId subjectId => assign_teacher s teacherId subjectId
  | Op.opCreateLogin role username password ref now =>
      orSame s (create_login s role username password ref now)
  | Op.opAddNotice title content today => orSame s (add_notice s title content today)
  | Op.opMarkAttendance studentId subjectId teacherRef today =>
      mark_attendance s studentId subjectId teacherRef today
  | Op.opUpdateMarks studentId subjectId teacherRef marksVal examType now =>
      update_marks s studentId subjectId teacherRef marksVal examType now
  | Op.opResetPassword userId newPw now => reset_password s userId newPw now

/-- A single-client run: the operations applied in order. -/
def applyOps (s : Store) (ops : List Op) : Store := ops.foldl applyOp s

/-- Two attendance rows about the same (student, subject, date) triple. -/
def sameTriple (a b : AttendanceRow) : Bool :=
  a.student_id == b.student_id && a.subject_id == b.subject_id &&
    a.date == b.date

/-- At most one attendance row per (student, subject, date) triple. -/
def AttendanceUniq (s : Store) : Prop :=
  s.attendance.Pairwise (fun a b => sameTriple a b = false)

/-- Rows of the `marks` table for one (student, subject) pair. -/
def marksForPair (s : Store) (studentId subjectId : Nat) : List MarksRow :=
  s.marks.filter (fun m => m.student_id == studentId && m.subject_id == subjectId)

/-- A sequence of `update_marks` calls for one (student, subject) pair;
each call carries (teacher, marks value, exam type, timestamp). -/
def runMarksCalls (studentId subjectId : Nat) :
    Store → List (Nat × Nat × String × String) → Store
  | s, [] => s
  | s, c :: rest =>
      runMarksCalls studentId subjectId
        (update_marks s studentId subjectId c.1 c.2.1 c.2.2.1 c.2.2.2) rest

/-- A one-user store for concrete witnesses. -/
def demoUser : UserRow :=
  UserRow.mk 1 "admin" "admin123" "admin" none "t0"

/-- A store holding exactly `demoUser`. -/
def demoStore : Store := { emptyStore with users := [demoUser] }

/-- A store holding one attendance row, for concrete witnesses. -/
def demoAttStore : Store :=
  { emptyStore with attendance := [AttendanceRow.mk 1 1 7 2 "2026-10-12" "Present"] }

/-! ### General helper lemmas -/

theorem le_foldr_max (x : Nat) (l : List Nat) (hx : x ∈ l) :
    x ≤ l.foldr max 0 := by
  induction l with
  | nil => cases hx
  | cons a t ih =>
      rcases List.mem_cons.mp hx with rfl | h
      · exact le_max_left _ _
      · exact Nat.le_trans (ih h) (le_max_right a _)

theorem nextId_not_mem (l : List Nat) : nextId l ∉ l := by
  intro h
  exact Nat.not_succ_le_self _ (le_foldr_max _ l h)

theorem find?_append_of_none {α : Type} (p : α → Bool) (l1 l2 : List α)
    (h : ∀ x ∈ l1, p x = false) :
    (l1 ++ l2).find? p = l2.find? p := by
  induction l1 with
  | nil => rfl
  | cons a t ih =>
      rw [List.cons_append,
        List.find?_cons_of_neg _ (by simp [h a (List.mem_cons_self a t)]),
        ih (fun x hx => h x (List.mem_cons_of_mem a hx))]

theorem map_id_of_fix {α : Type} (f : α → α) (l : List α)
    (h : ∀ a ∈ l, f a = a) : l.map f = l := by
  induction l with
  | nil => rfl
  | cons a t ih =>
      rw [List.map_cons, h a (List.mem_cons_self a t),
        ih (fun x hx => h x (List.mem_cons_of_mem a hx))]

theorem pairwise_mem_unique {α : Type} {R : α → α → Prop} (l : List α) :
    l.Pairwise R → ∀ a b, a ∈ l → b ∈ l → ¬ R a b → ¬ R b a → a = b := by
  induction l with
  | nil => intro _ a b ha; cases ha
  | cons c t ih =>
      intro hp a b ha hb hab hba
      rcases List.pairwise_cons.mp hp with ⟨hc, ht⟩
      rcases List.mem_cons.mp ha with rfl | h1
      · rcases List.mem_cons.mp hb with rfl | h2
        · rfl
        · exact absurd (hc b h2) hab
      · rcases List.mem_cons.mp hb with rfl | h2
        · exact absurd (hc a h1) hba
        · exact ih ht a b h1 h2 hab hba

/-! ### Behaviour of the attendance toggle -/

/-- When no row matches the triple, `mark_attendance` appends one fresh
`Present` row. -/
theorem mark_attendance_fresh (s : Store) (sid subid tid : Nat) (d : String)
    (h : ∀ r ∈ s.attendance, attMatches sid subid d r = false) :
    mark_attendance s sid subid tid d =
      { s with attendance := s.attendance ++
        [ { attendance_id := nextId (s.attendance.map (fun a => a.attendance_id)),
            student_id := sid, teacher_id := tid, subject_id := subid,
            date := d, status := "Present" } ] } := by
  have hn : s.attendance.find? (attMatches sid subid d) = none :=
    List.find?_eq_none.mpr (fun x hx => by simp [h x hx])
  unfold mark_attendance
  rw [hn]

/-- When the attendance table is some prefix of non-matching rows plus a
single matching row whose id is fresh for the prefix, the toggle flips
that row and records the toggling teacher. -/
theorem mark_attendance_found (s : Store) (sid subid tid : Nat) (d : String)
    (l : List AttendanceRow) (r : AttendanceRow)
    (hs : s.attendance = l ++ [r])
    (hl : ∀ a ∈ l, attMatches sid subid d a = false)
    (hr : attMatches sid subid d r = true)
    (hid : ∀ a ∈ l, (a.attendance_id == r.attendance_id) = false) :
    mark_attendance s sid subid tid d =
      { s with attendance := l ++
        [ { r with
            status := if r.status == "Absent" then "Present" else "Absent",
            teacher_id := tid } ] } := by
  have hf : s.attendance.find? (attMatches sid subid d) = some r := by
    rw [hs, find?_append_of_none _ l [r] hl, List.find?_cons_of_pos _ hr]
  unfold mark_attendance
  rw [hf]
  have hmap : s.attendance.map (fun a =>
      if a.attendance_id == r.attendance_id then
        { a with
            status := if r.status == "Absent" then "Present" else "Absent",
            teacher_id := tid }
      else a) = l ++
      [ { r with
          status := if r.status == "Absent" then "Present" else "Absent",
          teacher_id := tid } ] := by
    rw [hs, List.map_append]
    have h1 : l.map (fun a =>
        if a.attendance_id == r.attendance_id then
          { a with
              status := if r.status == "Absent" then "Present" else "Absent",
              teacher_id := tid }
        else a) = l :=
      map_id_of_fix _ l (fun a ha => by rw [if_neg (by simp [hid a ha])])
    rw [h1, List.map_cons, List.map_nil, if_pos (by simp)]
  exact congrArg (fun att => { s with attendance := att }) hmap

/-- Reading the status back from a table of the same shape. -/
theorem load_status_append (s : Store) (sid subid : Nat) (d : String)
    (l : List AttendanceRow) (r : AttendanceRow)
    (hs : s.attendance = l ++ [r])
    (hl : ∀ a ∈ l, attMatches sid subid d a = false)
    (hr : attMatches sid subid d r = true) :
    load_student_status s sid subid d = r.status := by
  unfold load_student_status
  rw [hs, find?_append_of_none _ l [r] hl, List.find?_cons_of_pos _ hr]

/-- Existential form of `mark_attendance_fresh`, exposing the fields of
the inserted row. -/
theorem mark_attendance_fresh_ex (s : Store) (sid subid tid : Nat) (d : String)
    (h : ∀ r ∈ s.attendance, attMatches sid subid d r = false) :
    ∃ row, (mark_attendance s sid subid tid d).attendance
        = s.attendance ++ [row] ∧
      attMatches sid subid d row = true ∧ row.status = "Present" ∧
      row.student_id = sid ∧ row.subject_id = subid ∧ row.date = d ∧
      row.teacher_id = tid ∧
      ∀ a ∈ s.attendance, (a.attendance_id == row.attendance_id) = false := by
  refine ⟨AttendanceRow.mk
      (nextId (s.attendance.map (fun a => a.attendance_id)))
      sid tid subid d "Present",
    by rw [mark_attendance_fresh s sid subid tid d h],
    by simp [attMatches], rfl, rfl, rfl, rfl, rfl, ?_⟩
  intro a ha
  have hmem : a.attendance_id ∈ s.attendance.map (fun x => x.attendance_id) :=
    List.mem_map_of_mem _ ha
  refine beq_eq_false_iff_ne.mpr (fun he => ?_)
  exact nextId_not_mem _ (he ▸ hmem)

/-- Existential form of `mark_attendance_found`: one toggle step on a
table holding exactly one matching row. -/
theorem mark_attendance_step (s : Store) (sid subid tid : Nat) (d : String)
    (l : List AttendanceRow) (r : AttendanceRow)
    (hs : s.attendance = l ++ [r])
    (hl : ∀ a ∈ l, attMatches sid subid d a = false)
    (hr : attMatches sid subid d r = true)
    (hid : ∀ a ∈ l, (a.attendance_id == r.attendance_id) = false) :
    ∃ row, (mark_attendance s sid subid tid d).attendance = l ++ [row] ∧
      attMatches sid subid d row = true ∧
      row.status = (if r.status == "Absent" then "Present" else "Absent") ∧
      row.attendance_id = r.attendance_id ∧ row.teacher_id = tid := by
  refine ⟨{ r with
      status := if r.status == "Absent" then "Present" else "Absent",
      teacher_id := tid },
    by rw [mark_attendance_found s sid subid tid d l r hs hl hr hid],
    ?_, rfl, rfl, rfl⟩
  exact hr

/-- C1: for a (student, subject, date) triple with no attendance record,
`mark_attendance` inserts a row with status `Present`; an existing row
is flipped between `Present` and `Absent`; hence three successive
toggles starting from no record read back `Present`, then `Absent`,
then `Present`. -/
theorem mark_attendance_alternation (s : Store)
    (sid subid tid1 tid2 tid3 : Nat) (d : String)
    (h : ∀ r ∈ s.attendance, attMatches sid subid d r = false) :
    (∃ row, (mark_attendance s sid subid tid1 d).attendance
        = s.attendance ++ [row] ∧ row.status = "Present" ∧
        row.student_id = sid ∧ row.subject_id = subid ∧ row.date = d ∧
        row.teacher_id = tid1) ∧
    load_student_status (mark_attendance s sid subid tid1 d) sid subid d
      = "Present" ∧
    load_student_status
      (mark_attendance (mark_attendance s sid subid tid1 d) sid subid tid2 d)
      sid subid d = "Absent" ∧
    load_student_status
      (mark_attendance
        (mark_attendance (mark_attendance s sid subid tid1 d) sid subid tid2 d)
        sid subid tid3 d)
      sid subid d = "Present" := by
  obtain ⟨r1, ha1, hm1, hst1, hsid1, hsub1, hd1, htid1, hfresh1⟩ :=
    mark_attendance_fresh_ex s sid subid tid1 d h
  obtain ⟨r2, ha2, hm2, hst2, hid2, -⟩ :=
    mark_attendance_step _ sid subid tid2 d s.attendance r1 ha1 h hm1 hfresh1
  have hst2a : r2.status = "Absent" := by rw [hst2, hst1]; rfl
  have hfresh2 : ∀ a ∈ s.attendance,
      (a.attendance_id == r2.attendance_id) = false := by
    intro a ha; rw [hid2]; exact hfresh1 a ha
  obtain ⟨r3, ha3, hm3, hst3, -, -⟩ :=
    mark_attendance_step _ sid subid tid3 d s.attendance r2 ha2 h hm2 hfresh2
  have hst3p : r3.status = "Present" := by rw [hst3, hst2a]; rfl
  refine ⟨⟨r1, ha1, hst1, hsid1, hsub1, hd1, htid1⟩, ?_, ?_, ?_⟩
  · exact (load_status_append _ sid subid d s.attendance r1 ha1 h hm1).trans hst1
  · exact (load_status_append _ sid subid d s.attendance r2 ha2 h hm2).trans hst2a
  · exact (load_status_append _ sid subid d s.attendance r3 ha3 h hm3).trans hst3p

/-- Witness for C1: the alternation law at a concrete empty store. -/
theorem mark_attendance_alternation_witness :
    (∃ row, (mark_attendance emptyStore 1 2 7 "2026-10-12").attendance
        = emptyStore.attendance ++ [row] ∧ row.status = "Present" ∧
        row.student_id = 1 ∧ row.subject_id = 2 ∧ row.date = "2026-10-12" ∧
        row.teacher_id = 7) ∧
    load_student_status (mark_attendance emptyStore 1 2 7 "2026-10-12")
      1 2 "2026-10-12" = "Present" ∧
    load_student_status
      (mark_attendance (mark_attendance emptyStore 1 2 7 "2026-10-12")
        1 2 8 "2026-10-12")
      1 2 "2026-10-12" = "Absent" ∧
    load_student_status
      (mark_attendance
        (mark_attendance (mark_attendance emptyStore 1 2 7 "2026-10-12")
          1 2 8 "2026-10-12")
        1 2 9 "2026-10-12")
      1 2 "2026-10-12" = "Present" :=
  mark_attendance_alternation emptyStore 1 2 7 8 9 "2026-10-12"
    (by intro r hr; simp [emptyStore] at hr)

/-! ### The at-most-one-row-per-triple invariant -/

theorem attUniq_of_eq {s s2 : Store} (he : s2.attendance = s.attendance)
    (h : AttendanceUniq s) : AttendanceUniq s2 := by
  unfold AttendanceUniq at h ⊢
  rw [he]
  exact h

theorem init_db_attendance (now : String) (s : Store) :
    (orSame s (init_db now s)).attendance = s.attendance := by
  unfold init_db
  split
  · rfl
  · split <;> rfl

theorem add_student_attendance (s : Store) (name roll phone email course : String) :
    (orSame s (add_student s name roll phone email course)).attendance
      = s.attendance := by
  unfold add_student
  split
  · rfl
  · split <;> rfl

theorem add_teacher_attendance (s : Store) (name phone email : String) :
    (orSame s (add_teacher s name phone email)).attendance = s.attendance := by
  unfold add_teacher
  split <;> rfl

theorem add_subject_attendance (s : Store) (name code : String) :
    (orSame s (add_subject s name code)).attendance = s.attendance := by
  unfold add_subject
  split
  · rfl
  · split <;> rfl

theorem create_login_attendance (s : Store) (role username password : String)
    (ref : Nat) (now : String) :
    (orSame s (create_login s role username password ref now)).attendance
      = s.attendance := by
  unfold create_login
  split
  · rfl
  · split
    · rfl
    · split <;> rfl

theorem add_notice_attendance (s : Store) (title content today : String) :
    (orSame s (add_notice s title content today)).attendance = s.attendance := by
  unfold add_notice
  split <;> rfl

theorem reset_password_attendance (s : Store) (userId : Nat) (newPw now : String) :
    (reset_password s userId newPw now).attendance = s.attendance := by
  unfold reset_password
  split <;> rfl

/-- Status and teacher updates do not move a row to another triple. -/
theorem sameTriple_toggleUpd (r : AttendanceRow) (tid : Nat) (st : String)
    (a b : AttendanceRow) :
    sameTriple
      (if a.attendance_id == r.attendance_id then
        { a with status := st, teacher_id := tid } else a)
      (if b.attendance_id == r.attendance_id then
        { b with status := st, teacher_id := tid } else b)
      = sameTriple a b := by
  unfold sameTriple
  split <;> split <;> rfl

theorem attUniq_mark (s : Store) (sid subid tid : Nat) (d : String)
    (h : AttendanceUniq s) :
    AttendanceUniq (mark_attendance s sid subid tid d) := by
  unfold AttendanceUniq at h ⊢
  unfold mark_attendance
  cases hf : s.attendance.find? (attMatches sid subid d) with
  | some r =>
      show List.Pairwise _ (s.attendance.map _)
      refine List.Pairwise.map _ (fun a b hab => ?_) h
      rw [sameTriple_toggleUpd r tid _ a b]
      exact hab
  | none =>
      show List.Pairwise _ (s.attendance ++ [_])
      rw [List.pairwise_append]
      refine ⟨h, by simp, fun a ha b hb => ?_⟩
      rw [List.mem_singleton.mp hb]
      have hm : attMatches sid subid d a = false := by
        have := List.find?_eq_none.mp hf a ha
        simpa using this
      exact hm

theorem attUniq_applyOp (s : Store) (op : Op) (h : AttendanceUniq s) :
    AttendanceUniq (applyOp s op) := by
  cases op with
  | opInitDb now => exact attUniq_of_eq (init_db_attendance now s) h
  | opAddStudent name roll phone email course =>
      exact attUniq_of_eq (add_student_attendance s name roll phone email course) h
  | opAddTeacher name phone email =>
      exact attUniq_of_eq (add_teacher_attendance s name phone email) h
  | opAddSubject name code =>
      exact attUniq_of_eq (add_subject_attendance s name code) h
  | opAssignTeacher teacherId subjectId => exact attUniq_of_eq rfl h
  | opCreateLogin role username password ref now =>
      exact attUniq_of_eq (create_login_attendance s role username password ref now) h
  | opAddNotice title content today =>
      exact attUniq_of_eq (add_notice_attendance s title content today) h
  | opMarkAttendance sid subid tid d => exact attUniq_mark s sid subid tid d h
  | opUpdateMarks sid subid tid mv ex now => exact attUniq_of_eq rfl h
  | opResetPassword uid newPw now =>
      exact attUniq_of_eq (reset_password_attendance s uid newPw now) h

theorem attUniq_applyOps (ops : List Op) :
    ∀ s, AttendanceUniq s → AttendanceUniq (applyOps s ops) := by
  induction ops with
  | nil => intro s h; exact h
  | cons op rest ih => intro s h; exact ih _ (attUniq_applyOp s op h)

/-- C2: in every store reachable from the empty store by a single-client
sequence of the operations of the program, at most one attendance row
exists per (student, subject, date) triple. -/
theorem attendance_unique_reachable (ops : List Op) :
    AttendanceUniq (applyOps emptyStore ops) :=
  attUniq_applyOps ops emptyStore List.Pairwise.nil

/-! ### Marks are append-only -/

/-- C3: `update_marks` always inserts a new marks row and never mutates
or removes an existing one: after N calls for a (student, subject) pair
the table is the old table plus N new rows for that pair, so the row
count for the pair grows by exactly N and every previously stored row
(for any pair) is unchanged. -/
theorem update_marks_append_only (s : Store) (studentId subjectId : Nat)
    (calls : List (Nat × Nat × String × String)) :
    ∃ t, (runMarksCalls studentId subjectId s calls).marks = s.marks ++ t ∧
      t.length = calls.length ∧
      (∀ m ∈ t, m.student_id = studentId ∧ m.subject_id = subjectId) ∧
      (marksForPair (runMarksCalls studentId subjectId s calls)
          studentId subjectId).length
        = (marksForPair s studentId subjectId).length + calls.length := by
  induction calls generalizing s with
  | nil => exact ⟨[], by simp [runMarksCalls], rfl, by simp, by simp [runMarksCalls]⟩
  | cons c rest ih =>
      simp only [runMarksCalls]
      obtain ⟨t, h1, h2, h3, h4⟩ :=
        ih (update_marks s studentId subjectId c.1 c.2.1 c.2.2.1 c.2.2.2)
      have hrow : (update_marks s studentId subjectId c.1 c.2.1 c.2.2.1
          c.2.2.2).marks
          = s.marks ++
            [ MarksRow.mk (nextId (s.marks.map (fun m => m.marks_id)))
                studentId subjectId c.1 c.2.1 c.2.2.1 c.2.2.2 ] := rfl
      refine ⟨MarksRow.mk (nextId (s.marks.map (fun m => m.marks_id)))
          studentId subjectId c.1 c.2.1 c.2.2.1 c.2.2.2 :: t, ?_, ?_, ?_, ?_⟩
      · rw [h1, hrow, List.append_assoc, List.singleton_append]
      · simp [h2]
      · intro m hm
        rcases List.mem_cons.mp hm with rfl | hm2
        · exact ⟨rfl, rfl⟩
        · exact h3 m hm2
      · rw [h4]
        have hpair : marksForPair
            (update_marks s studentId subjectId c.1 c.2.1 c.2.2.1 c.2.2.2)
            studentId subjectId
            = marksForPair s studentId subjectId ++
              [ MarksRow.mk (nextId (s.marks.map (fun m => m.marks_id)))
                  studentId subjectId c.1 c.2.1 c.2.2.1 c.2.2.2 ] := by
          unfold marksForPair
          rw [hrow, List.filter_append]
          simp
        rw [hpair]
        simp [List.length_append]
        omega

/-! ### Credential lookup -/

/-- C4: `authenticate` returns a user record exactly when a users row
with exactly that username and exactly that password exists
(case-sensitive string equality), and any returned record is such a
stored full row.  `authenticate` only reads: it maps a store to an
optional row and builds no new store, so it has no side effect. -/
theorem authenticate_characterisation (s : Store) (u p : String) :
    ((authenticate s u p).isSome = true ↔
      ∃ r ∈ s.users, r.username = u ∧ r.password = p) ∧
    (∀ r, authenticate s u p = some r →
      r ∈ s.users ∧ r.username = u ∧ r.password = p) := by
  constructor
  · simp [authenticate, List.find?_isSome, Bool.and_eq_true, beq_iff_eq]
  · intro r hr
    unfold authenticate at hr
    have h1 := List.mem_of_find?_eq_some hr
    have h2 := List.find?_some hr
    rw [Bool.and_eq_true, beq_iff_eq, beq_iff_eq] at h2
    exact ⟨h1, h2.1, h2.2⟩

/-- Witness for C4 on the one-user store. -/
theorem authenticate_characterisation_witness :
    demoUser ∈ demoStore.users ∧ demoUser.username = "admin" ∧
      demoUser.password = "admin123" :=
  (authenticate_characterisation demoStore "admin" "admin123").2 demoUser rfl

/-! ### Adding a student -/

/-- C5: with validated (non-empty) fields, `add_student` on a duplicate
roll number fails with a duplicate-key error and commits nothing, while
on a fresh roll number it succeeds and the resulting directory contains
exactly one row with that roll number. -/
theorem add_student_spec (s : Store) (name roll phone email course : String)
    (hname : strip name ≠ "") (hroll : strip roll ≠ "")
    (hphone : strip phone ≠ "") (hemail : strip email ≠ "")
    (hcourse : strip course ≠ "") :
    ((∃ r ∈ s.students, r.roll_no = strip roll) →
      add_student s name roll phone email course
          = Except.error DBError.duplicateKey ∧
        applyOp s (Op.opAddStudent name roll phone email course) = s) ∧
    ((∀ r ∈ s.students, r.roll_no ≠ strip roll) →
      ∃ s2, add_student s name roll phone email course = Except.ok s2 ∧
        ∃ row, s2.students = s.students ++ [row] ∧
          row.roll_no = strip roll ∧ row.name = strip name ∧
          row.phone = strip phone ∧ row.email = strip email ∧
          row.course = strip course ∧
          (s2.students.filter (fun r => r.roll_no == strip roll)).length
            = 1) := by
  have hval : ¬((strip name == "" || strip roll == "" || strip phone == "" ||
      strip email == "" || strip course == "") = true) := by
    simp [hname, hroll, hphone, hemail, hcourse]
  constructor
  · rintro ⟨r, hr, hrr⟩
    have hdup : (s.students.any fun r => r.roll_no == strip roll) = true :=
      List.any_eq_true.mpr ⟨r, hr, by simp [hrr]⟩
    have hEq : add_student s name roll phone email course
        = Except.error DBError.duplicateKey := by
      unfold add_student
      rw [if_neg hval, if_pos hdup]
    refine ⟨hEq, ?_⟩
    show orSame s (add_student s name roll phone email course) = s
    rw [hEq]
    rfl
  · intro hfresh
    have hdup : ¬((s.students.any fun r => r.roll_no == strip roll) = true) := by
      rw [List.any_eq_true]
      rintro ⟨r, hr, hrr⟩
      exact hfresh r hr (by simpa using hrr)
    have hEq : add_student s name roll phone email course
        = Except.ok { s with students := s.students ++
          [ StudentRow.mk (nextId (s.students.map (fun r => r.student_id)))
              (strip name) (strip roll) (strip phone) (strip email)
              (strip course) ] } := by
      unfold add_student
      rw [if_neg hval, if_neg hdup]
    refine ⟨_, hEq,
      StudentRow.mk (nextId (s.students.map (fun r => r.student_id)))
        (strip name) (strip roll) (strip phone) (strip email) (strip course),
      rfl, rfl, rfl, rfl, rfl, rfl, ?_⟩
    have h0 : s.students.filter (fun r => r.roll_no == strip roll) = [] :=
      List.filter_eq_nil_iff.mpr (fun a ha => by simp [hfresh a ha])
    have h1 : ((s.students ++
        [ StudentRow.mk (nextId (s.students.map (fun r => r.student_id)))
            (strip name) (strip roll) (strip phone) (strip email)
            (strip course) ]).filter
          (fun r => r.roll_no == strip roll)).length = 1 := by
      rw [List.filter_append, h0]
      simp
    exact h1

/-- Witness for C5: adding a fresh student to the empty store. -/
theorem add_student_spec_witness :
    ∃ s2, add_student emptyStore "Al" "R1" "p" "e" "c" = Except.ok s2 ∧
      ∃ row, s2.students = emptyStore.students ++ [row] ∧
        row.roll_no = strip "R1" ∧ row.name = strip "Al" ∧
        row.phone = strip "p" ∧ row.email = strip "e" ∧
        row.course = strip "c" ∧
        (s2.students.filter (fun r => r.roll_no == strip "R1")).length = 1 :=
  (add_student_spec emptyStore "Al" "R1" "p" "e" "c" (by decide) (by decide)
      (by decide) (by decide) (by decide)).2
    (by intro r hr; simp [emptyStore] at hr)

/-! ### Password reset -/

/-- C6 counterexample: the claim says that after `reset(user_id, new_pw)`
authentication with the old password fails.  Resetting `demoUser`
(stored password `admin123`) to the new password `admin123` leaves the
old password working, so the claim is false when the new password equals
the old one. -/
theorem reset_password_old_password_cex :
    authenticate (reset_password demoStore 1 "admin123" "t1") "admin" "admin123"
      = some (UserRow.mk 1 "admin" "admin123" "admin" none "t1") := by
  decide

/-- C6 (amended): for a stored user and a non-blank new password
different from the old one, `reset_password` stores the new password,
refreshes `created_at` to the reset time, and `authenticate` on that
username immediately fails for the old password and succeeds for the
new one (usernames are unique, as the schema enforces). -/
theorem reset_password_spec (s : Store) (uid : Nat) (u : UserRow)
    (newPw now : String)
    (hu : u ∈ s.users) (hid : u.user_id = uid)
    (huniq : ∀ r1 ∈ s.users, ∀ r2 ∈ s.users, r1.username = r2.username → r1 = r2)
    (hnew : newPw ≠ "") (hdiff : newPw ≠ u.password) :
    (∃ u2 ∈ (reset_password s uid newPw now).users,
      u2.user_id = uid ∧ u2.username = u.username ∧
      u2.password = newPw ∧ u2.created_at = now) ∧
    authenticate (reset_password s uid newPw now) u.username u.password
      = none ∧
    (authenticate (reset_password s uid newPw now) u.username newPw).isSome
      = true := by
  have hres : (reset_password s uid newPw now).users
      = s.users.map (fun r => if r.user_id == uid then
          { r with password := newPw, created_at := now } else r) := by
    unfold reset_password
    rw [if_neg (by simp [hnew])]
  refine ⟨⟨{ u with password := newPw, created_at := now }, ?_,
      by simp [hid], rfl, rfl, rfl⟩, ?_, ?_⟩
  · rw [hres]
    exact List.mem_map.mpr ⟨u, hu, by simp [hid]⟩
  · unfold authenticate
    rw [hres]
    refine List.find?_eq_none.mpr (fun x hx => ?_)
    rcases List.mem_map.mp hx with ⟨r, hr, rfl⟩
    by_cases hc : (r.user_id == uid) = true
    · rw [if_pos hc]
      simp only [Bool.and_eq_true, beq_iff_eq]
      rintro ⟨-, h2⟩
      exact hdiff h2
    · rw [if_neg hc]
      simp only [Bool.and_eq_true, beq_iff_eq]
      rintro ⟨h1, -⟩
      have : r = u := huniq r hr u hu h1
      subst this
      exact hc (by simp [hid])
  · unfold authenticate
    rw [hres, List.find?_isSome]
    refine ⟨{ u with password := newPw, created_at := now },
      List.mem_map.mpr ⟨u, hu, by simp [hid]⟩, by simp⟩

/-- Witness for C6 (amended) on the one-user store. -/
theorem reset_password_spec_witness :
    (∃ u2 ∈ (reset_password demoStore 1 "pw1" "t1").users,
      u2.user_id = 1 ∧ u2.username = demoUser.username ∧
      u2.password = "pw1" ∧ u2.created_at = "t1") ∧
    authenticate (reset_password demoStore 1 "pw1" "t1") demoUser.username
      demoUser.password = none ∧
    (authenticate (reset_password demoStore 1 "pw1" "t1") demoUser.username
      "pw1").isSome = true :=
  reset_password_spec demoStore 1 demoUser "pw1" "t1"
    (List.mem_singleton.mpr rfl) rfl (by decide) (by decide) (by decide)

/-! ### Schema bootstrap -/

/-- C7: when `init_db` returns a store, running it again on that store
returns it unchanged (idempotence), the returned store has at least one
admin user, and if the input store had no admin the seeded user is
`admin`/`admin123`. -/
theorem init_db_spec (s s2 : Store) (now now2 : String)
    (h : init_db now s = Except.ok s2) :
    init_db now2 s2 = Except.ok s2 ∧
    (∃ r ∈ s2.users, r.role = "admin") ∧
    ((∀ r ∈ s.users, r.role ≠ "admin") →
      ∃ r ∈ s2.users, r.username = "admin" ∧ r.password = "admin123" ∧
        r.role = "admin") := by
  unfold init_db at h
  by_cases h1 : (s.users.any fun r => r.role == "admin") = true
  · rw [if_pos h1] at h
    injection h with h
    subst h
    obtain ⟨r, hr, hrole⟩ := List.any_eq_true.mp h1
    have hrole2 : r.role = "admin" := beq_iff_eq.mp hrole
    exact ⟨by unfold init_db; rw [if_pos h1], ⟨r, hr, hrole2⟩,
      fun hno => absurd hrole2 (hno r hr)⟩
  · rw [if_neg h1] at h
    by_cases h2 : (s.users.any fun r => r.username == "admin") = true
    · rw [if_pos h2] at h
      exact absurd h (by simp)
    · rw [if_neg h2] at h
      injection h with h
      subst h
      have hmem : UserRow.mk (nextId (s.users.map fun r => r.user_id))
          "admin" "admin123" "admin" none now
          ∈ s.users ++ [UserRow.mk (nextId (s.users.map fun r => r.user_id))
            "admin" "admin123" "admin" none now] :=
        List.mem_append_right _ (List.mem_singleton.mpr rfl)
      have hany : (({ s with users := s.users ++
          [UserRow.mk (nextId (s.users.map fun r => r.user_id))
            "admin" "admin123" "admin" none now] } : Store).users.any
            fun r => r.role == "admin") = true :=
        List.any_eq_true.mpr ⟨_, hmem, by simp⟩
      exact ⟨by unfold init_db; rw [if_pos hany], ⟨_, hmem, rfl⟩,
        fun _ => ⟨_, hmem, rfl, rfl, rfl⟩⟩

/-- Witness for C7: initializing the empty store seeds the default
admin, and a second run is the identity. -/
theorem init_db_spec_witness :
    init_db "t1" demoStore = Except.ok demoStore ∧
    (∃ r ∈ demoStore.users, r.role = "admin") :=
  ⟨(init_db_spec emptyStore demoStore "t0" "t1" rfl).1,
   (init_db_spec emptyStore demoStore "t0" "t1" rfl).2.1⟩

/-! ### Attendance status lookup -/

/-- Two rows matching the same lookup triple are about the same triple. -/
theorem sameTriple_of_matches (sid subid : Nat) (d : String)
    (a b : AttendanceRow)
    (ha : attMatches sid subid d a = true)
    (hb : attMatches sid subid d b = true) :
    sameTriple a b = true := by
  simp only [attMatches, Bool.and_eq_true, beq_iff_eq] at ha hb
  simp only [sameTriple, Bool.and_eq_true, beq_iff_eq]
  obtain ⟨⟨ha1, ha2⟩, ha3⟩ := ha
  obtain ⟨⟨hb1, hb2⟩, hb3⟩ := hb
  exact ⟨⟨ha1.trans hb1.symm, ha2.trans hb2.symm⟩, ha3.trans hb3.symm⟩

/-- C8: on a store whose attendance table has at most one row per
triple (the reachable-store invariant), the status lookup returns the
stored status of the row for the triple when one exists and `NotMarked`
when none does.  The lookup itself is a total pure function: it cannot
fail and never writes the store. -/
theorem load_student_status_spec (s : Store) (sid subid : Nat) (d : String)
    (huniq : AttendanceUniq s) :
    (∀ r ∈ s.attendance, attMatches sid subid d r = true →
      load_student_status s sid subid d = r.status) ∧
    ((∀ r ∈ s.attendance, attMatches sid subid d r = false) →
      load_student_status s sid subid d = "NotMarked") := by
  constructor
  · intro r hr hm
    have hsome : (s.attendance.find? (attMatches sid subid d)).isSome = true :=
      List.find?_isSome.mpr ⟨r, hr, hm⟩
    obtain ⟨r2, hr2⟩ := Option.isSome_iff_exists.mp hsome
    have hmem := List.mem_of_find?_eq_some hr2
    have hm2 := List.find?_some hr2
    have heq : r2 = r :=
      pairwise_mem_unique s.attendance huniq r2 r hmem hr
        (by simp [sameTriple_of_matches sid subid d r2 r hm2 hm])
        (by simp [sameTriple_of_matches sid subid d r r2 hm hm2])
    have hload : load_student_status s sid subid d = r2.status := by
      unfold load_student_status
      rw [hr2]
    rw [hload, heq]
  · intro hnone
    unfold load_student_status
    rw [List.find?_eq_none.mpr (fun x hx => by simp [hnone x hx])]

/-- Witness for C8 on a one-row attendance table. -/
theorem load_student_status_spec_witness :
    load_student_status demoAttStore 1 2 "2026-10-12" = "Present" :=
  (load_student_status_spec demoAttStore 1 2 "2026-10-12"
      (by simp [AttendanceUniq, demoAttStore])).1
    (AttendanceRow.mk 1 1 7 2 "2026-10-12" "Present")
    (List.mem_singleton.mpr rfl) (by decide)

/-! ### Login-boundary validation -/

/-- C9: the login entry point strips surrounding whitespace from both
fields, so attempts whose inputs agree after stripping behave
identically; a field that is empty after stripping is rejected with a
validation error whose outcome does not depend on the store (the store
is never consulted). -/
theorem do_login_strip_spec (s s2 : Store) (u1 p1 u2 p2 : String)
    (hu : strip u1 = strip u2) (hp : strip p1 = strip p2) :
    do_login s u1 p1 = do_login s u2 p2 ∧
    ((strip u1 = "" ∨ strip p1 = "") →
      do_login s u1 p1 = LoginResult.validationError ∧
      do_login s u1 p1 = do_login s2 u1 p1) := by
  constructor
  · simp only [do_login]
    rw [hu, hp]
  · intro hemp
    have hc : (strip u1 == "" || strip p1 == "") = true := by
      rcases hemp with h | h <;> simp [h]
    constructor
    · simp only [do_login]
      rw [if_pos hc]
    · simp only [do_login]
      rw [if_pos hc]
      rw [if_pos hc]

/-- Witness for C9: surrounding whitespace does not affect a login. -/
theorem do_login_strip_spec_witness :
    do_login demoStore " admin " " admin123 "
      = do_login demoStore "admin" "admin123" :=
  (do_login_strip_spec demoStore demoStore " admin " " admin123 "
    "admin" "admin123" (by decide) (by decide)).1

/-! ### Notice board -/

/-- C10: `add_notice` requires a non-empty (stripped) title and content;
on success it appends exactly one notice row whose date is the supplied
current date (`str(date.today())` - the caller cannot choose it) and
leaves every other table unchanged; an empty field is rejected. -/
theorem add_notice_spec (s : Store) (title content today : String) :
    ((strip title ≠ "" ∧ strip content ≠ "") →
      ∃ s2, add_notice s title content today = Except.ok s2 ∧
        (∃ n, s2.notices = s.notices ++ [n] ∧ n.title = strip title ∧
          n.content = strip content ∧ n.date = today) ∧
        s2.users = s.users ∧ s2.teachers = s.teachers ∧
        s2.students = s.students ∧ s2.subjects = s.subjects ∧
        s2.assignments = s.assignments ∧ s2.attendance = s.attendance ∧
        s2.marks = s.marks) ∧
    ((strip title = "" ∨ strip content = "") →
      add_notice s title content today
        = Except.error DBError.validationError) := by
  constructor
  · rintro ⟨ht, hc⟩
    have hcond : ¬((strip title == "" || strip content == "") = true) := by
      simp [ht, hc]
    have hEq : add_notice s title content today
        = Except.ok { s with notices := s.notices ++
          [ NoticeRow.mk (nextId (s.notices.map fun n => n.notice_id))
              (strip title) (strip content) today ] } := by
      unfold add_notice
      rw [if_neg hcond]
    exact ⟨_, hEq, ⟨_, rfl, rfl, rfl, rfl⟩, rfl, rfl, rfl, rfl, rfl, rfl, rfl⟩
  · intro hemp
    have hcond : (strip title == "" || strip content == "") = true := by
      rcases hemp with h | h <;> simp [h]
    unfold add_notice
    rw [if_pos hcond]

/-- Witness for C10: posting a notice to the empty store. -/
theorem add_notice_spec_witness :
    ∃ s2, add_notice emptyStore "T" "C" "2026-10-12" = Except.ok s2 ∧
      (∃ n, s2.notices = emptyStore.notices ++ [n] ∧ n.title = strip "T" ∧
        n.content = strip "C" ∧ n.date = "2026-10-12") ∧
      s2.users = emptyStore.users ∧ s2.teachers = emptyStore.teachers ∧
      s2.students = emptyStore.students ∧ s2.subjects = emptyStore.subjects ∧
      s2.assignments = emptyStore.assignments ∧
      s2.attendance = emptyStore.attendance ∧ s2.marks = emptyStore.marks :=
  (add_notice_spec emptyStore "T" "C" "2026-10-12").1 ⟨by decide, by decide⟩

end Erp
